import Mathlib

/-!
Verification development for the jubtools repository: a shallow embedding of
the configuration loader (`jubtools/config.py`) and of the unified database
access layer (Facade, Query Registry, Row wrapper, backend drivers and
connection-scoping middleware), together with theorems settling the spec's
claims about them.
-/

set_option autoImplicit false

namespace Jubtools

/-! ## Configuration loader (`src/jubtools/config.py`) -/

/-- A primitive (non-table) TOML/config value, as stored in `CONFIG`.
Covers the value kinds the repository's config files use. -/
inductive PyVal where
  | int (n : Int)
  | str (s : String)
  | bool (b : Bool)
deriving DecidableEq

/-- A value in the nested `CONFIG` mapping: either a primitive or a nested
dict, modelled as an insertion-ordered association list (Python dicts
preserve insertion order). -/
inductive CVal where
  | prim (v : PyVal)
  | table (entries : List (String × CVal))

/-- Outcome of a Python-level failure inside `config.get` / `_merge_into`. -/
inductive PyErr where
  | typeError
  | keyError (key : String)
  | exn (msg : String)
deriving DecidableEq

/-- Lowercase one character, ASCII range. -/
def charLower (c : Char) : Char :=
  if 'A' ≤ c ∧ c ≤ 'Z' then Char.ofNat (c.toNat + 32) else c

/-- Python `str.casefold`. On the ASCII keys occurring in this repository's
configuration it agrees with ASCII lowercasing, which is how we model it. -/
def pyCasefold (s : String) : String := String.mk (s.data.map charLower)

/-- Helper for `pySplitDot`: accumulate the current (reversed) segment and
emit a segment at each `'.'` and at the end of the input. -/
def splitDotAux : List Char → List Char → List String
  | [], cur => [String.mk cur.reverse]
  | c :: cs, cur =>
    if c = '.' then String.mk cur.reverse :: splitDotAux cs []
    else splitDotAux cs (c :: cur)

/-- Python `full_key.split(".")`: split on every dot, keeping empty
segments (so the empty string splits to `[""]`). -/
def pySplitDot (s : String) : List String := splitDotAux s.data []

/-- Python dict assignment `d[k] = v` on an insertion-ordered association
list: overwrite in place (keeping the original key and position) when the
key is present, append otherwise. -/
def dictSet {α : Type} : List (String × α) → String → α → List (String × α)
  | [], k, v => [(k, v)]
  | (k0, v0) :: es, k, v =>
    if k0 == k then (k0, v) :: es else (k0, v0) :: dictSet es k v

/-- Bool-valued substring containment, modelling Python's `needle in hay`
on strings. -/
def strContains (hay needle : String) : Bool :=
  (List.range (hay.length + 1)).any
    (fun i => (hay.data.drop i).take needle.length == needle.data)

/-- Python `key in vals` as it occurs inside `config.get`: membership on a
dict, substring test on a string, `TypeError` on other primitives. -/
def pyContains (k : String) : CVal → Except PyErr Bool
  | .table es => .ok (es.any (fun e => e.1 == k))
  | .prim (.str s) => .ok (strContains s k)
  | .prim _ => .error .typeError

/-- Python `vals[k]` as it occurs inside `config.get`: dict indexing raising
`KeyError` when absent, `TypeError` on primitives. -/
def pyIndex (k : String) : CVal → Except PyErr CVal
  | .table es =>
    match es.lookup k with
    | some v => .ok v
    | none => .error (.keyError k)
  | .prim _ => .error .typeError

/-- The loop body of `config.get` (config.py lines 35-42): for each segment,
`if key not in vals: raise Exception(f"Config key not present: {full_key}")`
followed by `vals = vals[key.casefold()]`. -/
def config_get_go (fullKey : String) : List String → CVal → Except PyErr CVal
  | [], vals => .ok vals
  | key :: rest, vals =>
    match pyContains key vals with
    | .error e => .error e
    | .ok false => .error (.exn ("Config key not present: " ++ fullKey))
    | .ok true =>
      match pyIndex (pyCasefold key) vals with
      | .error e => .error e
      | .ok next => config_get_go fullKey rest next

/-- `config.get(full_key)`: split on dots and walk the nested `CONFIG`
mapping. -/
def config_get (cfg : List (String × CVal)) (fullKey : String) :
    Except PyErr CVal :=
  config_get_go fullKey (pySplitDot fullKey) (.table cfg)

/-- Reference walker following the spec's reading of `get`: the presence
check and the read use the same segment, exactly as written. Used to state
that `config.get` behaves like a plain nested lookup whenever every segment
is casefold-invariant. -/
def config_get_spec_go (fullKey : String) :
    List String → CVal → Except PyErr CVal
  | [], vals => .ok vals
  | key :: rest, vals =>
    match pyContains key vals with
    | .error e => .error e
    | .ok false => .error (.exn ("Config key not present: " ++ fullKey))
    | .ok true =>
      match pyIndex key vals with
      | .error e => .error e
      | .ok next => config_get_spec_go fullKey rest next

/-- Reference form of `config.get` using `config_get_spec_go`. -/
def config_get_spec (cfg : List (String × CVal)) (fullKey : String) :
    Except PyErr CVal :=
  config_get_spec_go fullKey (pySplitDot fullKey) (.table cfg)

/-- `_merge_into(src, dest)` (config.py lines 53-60): recursively merge
`src` into `dest`; dict-valued entries are merged into a node obtained by
`dest.setdefault(key, {})` under the key **as written**, while non-dict
values are written under the **casefolded** key. Returns `none` where the
Python code would raise (merging a non-empty dict into a primitive node). -/
def merge_into : List (String × CVal) → List (String × CVal) →
    Option (List (String × CVal))
  | [], dest => some dest
  | (k, .table t) :: rest, dest =>
    (match dest.lookup k with
     | some (.table t0) =>
       match merge_into t t0 with
       | some t0' => merge_into rest (dictSet dest k (.table t0'))
       | none => none
     | some (.prim _) =>
       if t.isEmpty then merge_into rest dest else none
     | none =>
       match merge_into t [] with
       | some node => merge_into rest (dest ++ [(k, .table node)])
       | none => none)
  | (k, .prim p) :: rest, dest =>
    merge_into rest (dictSet dest (pyCasefold k) (.prim p))
termination_by src _ => sizeOf src
decreasing_by all_goals (simp_all <;> omega)

/-! ## Unified database access layer

The repository's `jubtools/db.py`, `jubtools/psql.py` and `jubtools/sqlt.py`
are not present under `src/`; only their unit tests
(`src/tests/test_db.py`), the integration tests and the bootstrap caller
(`src/jubtools/systemtools.py`) are. The definitions below are therefore
modelled from the spec (sections 3, 4 and 7), constrained by the behavior
those tests pin down (dispatch shape, error kinds and messages, the
forwarded arguments). -/

/-- The backend-identity enumeration, from `src/jubtools/systemtools.py`
(`class DBModule(Enum)`): exactly the two variants `SQLITE` (Embedded) and
`POSTGRES` (ClientServer). -/
inductive DBModule where
  | SQLITE
  | POSTGRES
deriving DecidableEq

/-- Modelled from the spec: the error taxonomy of the missing `jubtools`
database layer (spec section 7) — `NotInitializedError`,
`UnsupportedOperationError` and `NotFoundError` kinds, all surfaced as the
library's `DatabaseError` per `src/tests/test_db.py`. -/
inductive DBErr where
  | notInitialized (msg : String)
  | unsupported (msg : String)
  | notFound (name : String)
deriving DecidableEq

/-- Modelled from the spec: the process-wide state of the missing
`jubtools/db.py` facade — the active-module reference `_db_module`
(`None` until `init`) together with the per-driver query registries
(name-to-SQL mappings such as `sqlt._SAVED_SQL`, cf.
`src/tests/test_integration.py` line 123). -/
structure DBState where
  db_module : Option DBModule
  psql_saved : List (String × String)
  sqlt_saved : List (String × String)

/-- Modelled from the spec: the missing `db.init(db_module)` — records the
active backend identity (spec section 4.1); backend-specific setup is the
driver's concern and out of this state. -/
def db_init (backend : DBModule) (st : DBState) : DBState :=
  { st with db_module := some backend }

/-- Modelled from the spec: the missing driver-level `store(name, sql)` of
the query registry (spec section 4.2) — an unconditional upsert into the
name-to-SQL mapping, Python dict assignment `_SAVED_SQL[name] = sql`. -/
def store_sql (saved : List (String × String)) (name sql : String) :
    List (String × String) :=
  dictSet saved name sql

/-- Modelled from the spec: the missing registry lookup `resolve(name)`
(spec section 4.2) — returns the stored SQL text or signals the
`NotFoundError` kind when the name is absent. -/
def resolve_sql (saved : List (String × String)) (name : String) :
    Except DBErr String :=
  match saved.lookup name with
  | some sql => .ok sql
  | none => .error (.notFound name)

/-- Modelled from the spec: the missing `db.store(name, sql)` facade
operation. The repository's own tests (`src/tests/test_db.py` lines 35-53)
pin its shape: it dispatches to the active driver's `store` and raises a
`DatabaseError` when `_db_module` is `None`. -/
def db_store (st : DBState) (name sql : String) : Except DBErr DBState :=
  match st.db_module with
  | none => .error (.notInitialized "Database not initialized")
  | some .POSTGRES => .ok { st with psql_saved := store_sql st.psql_saved name sql }
  | some .SQLITE => .ok { st with sqlt_saved := store_sql st.sqlt_saved name sql }

/-- The backend-agnostic row wrapper: `db.Row` wraps one backend-native
record (`self._row = row`, field `row` here). -/
structure Row (ρ : Type) where
  row : ρ

/-- A backend-native record, modelled by its observable interface as
exercised in `src/tests/test_db.py` (`test_row_wrapper`): attribute
lookup, item lookup (possibly failing), membership, and the
`keys`/`values`/`items` views. -/
structure Record (α : Type) where
  getattr : String → Option α
  getitem : String → Option α
  hasKey : String → Bool
  keyList : List String
  valList : List α
  itemList : List (String × α)

/-- Modelled from the spec: `Row.__getattr__` of the missing
`jubtools/db.py` — delegates attribute access to the wrapped record. -/
def Row.getattr {α : Type} (r : Row (Record α)) (name : String) : Option α :=
  r.row.getattr name

/-- Modelled from the spec: `Row.__getitem__` — delegates key-style access
to the wrapped record. -/
def Row.getitem {α : Type} (r : Row (Record α)) (key : String) : Option α :=
  r.row.getitem key

/-- Modelled from the spec: `Row.__contains__` — delegates the membership
test to the wrapped record. -/
def Row.hasKey {α : Type} (r : Row (Record α)) (key : String) : Bool :=
  r.row.hasKey key

/-- Modelled from the spec: `Row.keys()` — delegates to the wrapped
record. -/
def Row.keys {α : Type} (r : Row (Record α)) : List String :=
  r.row.keyList

/-- Modelled from the spec: `Row.values()` — delegates to the wrapped
record. -/
def Row.values {α : Type} (r : Row (Record α)) : List α :=
  r.row.valList

/-- Modelled from the spec: `Row.items()` — delegates to the wrapped
record. -/
def Row.items {α : Type} (r : Row (Record α)) : List (String × α) :=
  r.row.itemList

/-- The mock backend-native record built in `src/tests/test_db.py`
(`test_row_wrapper`): attributes `id = 1` and `name = "test"`, item access
always answering `"test_value"`, membership always true, and fixed
`keys`/`values`/`items` views. -/
def mock_row : Record PyVal where
  getattr := fun n =>
    if n == "id" then some (.int 1)
    else if n == "name" then some (.str "test") else none
  getitem := fun _ => some (.str "test_value")
  hasKey := fun _ => true
  keyList := ["id", "name"]
  valList := [.int 1, .str "test"]
  itemList := [("id", .int 1), ("name", .str "test")]

/-- Modelled from the spec: the missing ClientServer driver's
`psql.execute(name, params, return_rows)` (spec section 4.4) — resolves
`name` in the driver's registry (signalling `NotFoundError` when absent)
and runs the resolved SQL with bound parameters against the scoped
connection; the flag controls whether results are materialized and
returned versus executed for side effect only. The actual engine is the
abstract `run`. -/
def psql_execute {ρ π : Type} (saved : List (String × String))
    (run : String → π → List ρ) (name : String) (params : π)
    (return_rows : Bool) : Except DBErr (List ρ) :=
  match resolve_sql saved name with
  | .error e => .error e
  | .ok sql => .ok (if return_rows then run sql params else [])

/-- Modelled from the spec: the missing `db.execute(name, params)` facade
operation (spec sections 4.1 and 4.5), parametric over the ClientServer
driver's `execute`. `src/tests/test_db.py` pins: not-initialized check;
the SQLite variant raises `DatabaseError` with message
`SQLite execute function not implemented` inside `db.py` itself; the
PostgreSQL variant forwards `(name, params, True)` to `psql.execute` and
wraps each resulting record as a `Row`. -/
def db_execute {ρ π : Type}
    (psqlExec : String → π → Bool → Except DBErr (List ρ))
    (st : DBState) (name : String) (params : π) :
    Except DBErr (List (Row ρ)) :=
  match st.db_module with
  | none => .error (.notInitialized "Database not initialized")
  | some .SQLITE => .error (.unsupported "SQLite execute function not implemented")
  | some .POSTGRES =>
    match psqlExec name params true with
    | .error e => .error e
    | .ok rs => .ok (rs.map Row.mk)

/-- Modelled from the spec: the missing `db.execute_sql(sql, params)`
facade operation — same dispatch rule as `execute`, bypassing the
registry; the PostgreSQL variant forwards `(sql, params)` to
`psql.execute_sql` and wraps the records (`src/tests/test_db.py`
`test_execute_sql_postgres`); raw SQL through this layer is not
implemented for the Embedded variant (spec sections 4.1 and 4.5). -/
def db_execute_sql {ρ π : Type}
    (psqlExecSql : String → π → Except DBErr (List ρ))
    (st : DBState) (sql : String) (params : π) :
    Except DBErr (List (Row ρ)) :=
  match st.db_module with
  | none => .error (.notInitialized "Database not initialized")
  | some .SQLITE => .error (.unsupported "SQLite execute_sql function not implemented")
  | some .POSTGRES =>
    match psqlExecSql sql params with
    | .error e => .error e
    | .ok rs => .ok (rs.map Row.mk)

/-- Modelled from the spec: the missing `db.transaction(req)` facade
operation — not-initialized check, then forward to `psql.transaction(req)`
for the ClientServer variant; for the Embedded variant `db.py` raises
`DatabaseError` with message `SQLite transaction function not implemented`
(`src/tests/test_db.py` `test_transaction_sqlite_not_implemented`). -/
def db_transaction {ρreq τ : Type} (psqlTxn : ρreq → τ)
    (st : DBState) (req : ρreq) : Except DBErr τ :=
  match st.db_module with
  | none => .error (.notInitialized "Database not initialized")
  | some .SQLITE => .error (.unsupported "SQLite transaction function not implemented")
  | some .POSTGRES => .ok (psqlTxn req)

/-- The middleware classes the facade can hand out, one per driver
(`psql.ConnMiddleware` / `sqlt.ConnMiddleware`). -/
inductive Middleware where
  | psqlConnMiddleware
  | sqltConnMiddleware
deriving DecidableEq

/-- Modelled from the spec: the missing `db.get_middleware()` facade
operation — not-initialized check, then return the active driver's
`ConnMiddleware` class (`src/tests/test_db.py` lines 55-75). -/
def db_get_middleware (st : DBState) : Except DBErr Middleware :=
  match st.db_module with
  | none => .error (.notInitialized "Database not initialized")
  | some .SQLITE => .ok .sqltConnMiddleware
  | some .POSTGRES => .ok .psqlConnMiddleware

/-- The observable backend-wide effect of `db.shutdown`: a call of the
ClientServer driver's `shutdown` (pool drain). -/
inductive DriverCall where
  | psqlShutdown
deriving DecidableEq

/-- Modelled from the spec: the missing `db.shutdown()` facade operation
(spec section 4.1) — for the ClientServer variant it invokes
`psql.shutdown` exactly once (pool drain, `src/tests/test_db.py`
`test_shutdown_postgres`); for the Embedded variant it is a no-op
(`test_shutdown_sqlite`). The returned list is the trace of driver
shutdown calls performed. -/
def db_shutdown (st : DBState) : Except DBErr (List DriverCall) :=
  match st.db_module with
  | none => .error (.notInitialized "Database not initialized")
  | some .POSTGRES => .ok [.psqlShutdown]
  | some .SQLITE => .ok []

/-! ## Connection-scoping middleware (ClientServer pool) -/

/-- The ClientServer driver's bounded connection pool, observed through
its size and its count of available (not checked out) connections. -/
structure Pool where
  size : Nat
  available : Nat
deriving DecidableEq

/-- How one request's handler finishes: the exit paths the spec requires
the middleware to release the connection on (spec section 5). -/
inductive ReqOutcome where
  | success
  | handledError
  | unhandledFault
  | timeout
  | cancelled
deriving DecidableEq

/-- Pool checkout: take one available connection; a saturated pool has
none to give (its bounded wait surfaces as a timeout failure, spec
section 5). -/
def pool_acquire (p : Pool) : Option Pool :=
  if 0 < p.available then some { p with available := p.available - 1 } else none

/-- Return a connection to the pool. -/
def pool_release (p : Pool) : Pool :=
  { p with available := p.available + 1 }

/-- Modelled from the spec: the missing `psql.ConnMiddleware` — per
request it checks one connection out of the pool before the handler runs
and releases it in a guaranteed-cleanup block on request completion,
propagating the handler's outcome unchanged (spec sections 4.4 and 5:
scoped-acquisition-with-guaranteed-release on success, handled error,
unhandled fault, timeout and cancellation alike). On a saturated pool the
bounded wait fails with a timeout before any checkout. -/
def conn_middleware (p : Pool) (handler : ReqOutcome) : ReqOutcome × Pool :=
  match pool_acquire p with
  | none => (.timeout, p)
  | some checkedOut => (handler, pool_release checkedOut)

/-! ## Helper lemmas -/

/-- Looking up a key right after `dictSet` with that key yields the new
value. -/
theorem lookup_dictSet_self {α : Type} (es : List (String × α)) (k : String)
    (v : α) : (dictSet es k v).lookup k = some v := by
  induction es with
  | nil => simp [dictSet, List.lookup]
  | cons e es ih =>
    obtain ⟨k0, v0⟩ := e
    by_cases h : k0 = k
    · simp [dictSet, h, List.lookup]
    · have hb : (k0 == k) = false := by simp [h]
      have hb' : (k == k0) = false := by simp [Ne.symm h]
      simp [dictSet, hb, List.lookup, hb', ih]

/-- `dictSet` with a different key does not change the lookup of `k`. -/
theorem lookup_dictSet_other {α : Type} (es : List (String × α))
    (k k2 : String) (v : α) (h : k2 ≠ k) :
    (dictSet es k2 v).lookup k = es.lookup k := by
  induction es with
  | nil =>
    have hb : (k == k2) = false := by simp [Ne.symm h]
    simp [dictSet, List.lookup, hb]
  | cons e es ih =>
    obtain ⟨k0, v0⟩ := e
    by_cases h0 : k0 = k2
    · subst h0
      have hb2 : (k == k0) = false := by simp [Ne.symm h]
      simp [dictSet, List.lookup, hb2]
    · have hb : (k0 == k2) = false := by simp [h0]
      by_cases hk : k = k0
      · subst hk
        simp [dictSet, hb, List.lookup]
      · have hb' : (k == k0) = false := by simp [hk]
        simp [dictSet, hb, List.lookup, hb', ih]

/-- A fold of `store_sql` operations none of which uses the name `k` leaves
the resolution of `k` unchanged. -/
theorem lookup_foldl_store (ls : List (String × String))
    (acc : List (String × String)) (k : String)
    (h : ∀ e ∈ ls, e.1 ≠ k) :
    (ls.foldl (fun r e => store_sql r e.1 e.2) acc).lookup k = acc.lookup k := by
  induction ls generalizing acc with
  | nil => rfl
  | cons e ls ih =>
    have hhead : e.1 ≠ k := h e (by simp)
    have htail : ∀ e2 ∈ ls, e2.1 ≠ k := fun e2 he2 => h e2 (by simp [he2])
    simp only [List.foldl_cons]
    rw [ih _ htail, store_sql, lookup_dictSet_other _ _ _ _ hhead]

/-- If a table's membership test succeeds for `k`, so does its lookup. -/
theorem lookup_of_any {α : Type} (es : List (String × α)) (k : String)
    (h : es.any (fun e => e.1 == k) = true) : ∃ v, es.lookup k = some v := by
  induction es with
  | nil => simp at h
  | cons e es ih =>
    obtain ⟨k0, v0⟩ := e
    by_cases h0 : k0 = k
    · exact ⟨v0, by simp [List.lookup, h0]⟩
    · have hb : (k == k0) = false := by simp [Ne.symm h0]
      have h' : es.any (fun e => e.1 == k) = true := by
        simpa [h0] using h
      obtain ⟨v, hv⟩ := ih h'
      exact ⟨v, by simp [List.lookup, hb, hv]⟩

/-- The reference walker never fails with a plain `KeyError`: its presence
check and its read use the same key. -/
theorem config_get_spec_go_no_keyError (segs : List String)
    (fullKey : String) (vals : CVal) (s : String) :
    config_get_spec_go fullKey segs vals ≠ .error (.keyError s) := by
  induction segs generalizing vals with
  | nil => simp [config_get_spec_go]
  | cons key rest ih =>
    match vals with
    | .prim (.int n) => simp [config_get_spec_go, pyContains]
    | .prim (.bool b) => simp [config_get_spec_go, pyContains]
    | .prim (.str str) =>
      by_cases h : strContains str key
      · simp [config_get_spec_go, pyContains, h, pyIndex]
      · simp [config_get_spec_go, pyContains, h]
    | .table es =>
      by_cases h : es.any (fun e => e.1 == key) = true
      · obtain ⟨v, hv⟩ := lookup_of_any es key h
        simpa [config_get_spec_go, pyContains, h, pyIndex, hv] using ih v
      · simp [config_get_spec_go, pyContains, h]

/-- When every segment equals its own casefold, the walk of `config.get`
agrees with the reference walker. -/
theorem config_get_go_eq_spec (segs : List String) (fullKey : String)
    (vals : CVal) (hinv : ∀ s ∈ segs, pyCasefold s = s) :
    config_get_go fullKey segs vals = config_get_spec_go fullKey segs vals := by
  induction segs generalizing vals with
  | nil => rfl
  | cons key rest ih =>
    have hkey : pyCasefold key = key := hinv key (by simp)
    have htail : ∀ s ∈ rest, pyCasefold s = s :=
      fun s hs => hinv s (by simp [hs])
    simp only [config_get_go, config_get_spec_go, hkey]
    cases hc : pyContains key vals with
    | error e => rfl
    | ok b =>
      cases b with
      | false => rfl
      | true =>
        cases hi : pyIndex key vals with
        | error e => rfl
        | ok next => exact ih next htail

/-! ## Claims -/

/-- C1: every dispatching facade operation — `execute`, `execute_sql`,
`transaction`, `get_middleware` — invoked while no backend is active
(`_db_module` is `None`, i.e. before any `init`) fails with the
`NotInitializedError` kind, whichever driver functions would later serve
either backend variant. -/
theorem dispatch_before_init_fails {ρ π ρreq τ : Type}
    (psqlExec : String → π → Bool → Except DBErr (List ρ))
    (psqlExecSql : String → π → Except DBErr (List ρ))
    (psqlTxn : ρreq → τ) (st : DBState) (hnone : st.db_module = none)
    (name sqlText : String) (params : π) (req : ρreq) :
    db_execute psqlExec st name params
      = .error (.notInitialized "Database not initialized")
    ∧ db_execute_sql psqlExecSql st sqlText params
      = .error (.notInitialized "Database not initialized")
    ∧ db_transaction psqlTxn st req
      = .error (.notInitialized "Database not initialized")
    ∧ db_get_middleware st
      = .error (.notInitialized "Database not initialized") := by
  simp [db_execute, db_execute_sql, db_transaction, db_get_middleware, hnone]

/-- Witness for C1 at a concrete uninitialized state. -/
theorem dispatch_before_init_fails_witness :
    db_execute (fun _ _ _ => (.ok [] : Except DBErr (List Unit)))
      ⟨none, [], []⟩ "q" 0
      = .error (.notInitialized "Database not initialized")
    ∧ db_execute_sql (fun _ _ => (.ok [] : Except DBErr (List Unit)))
      ⟨none, [], []⟩ "SELECT 1" 0
      = .error (.notInitialized "Database not initialized")
    ∧ db_transaction (fun _ : Unit => ()) ⟨none, [], []⟩ ()
      = .error (.notInitialized "Database not initialized")
    ∧ db_get_middleware ⟨none, [], []⟩
      = .error (.notInitialized "Database not initialized") :=
  dispatch_before_init_fails _ _ _ ⟨none, [], []⟩ rfl "q" "SELECT 1" 0 ()

/-- C2 counterexample: `store` called before any `init` does **not**
succeed — it fails with the `NotInitializedError` kind, exactly as the
repository's own test `test_store_not_initialized` asserts. -/
theorem store_before_init_raises :
    db_store ⟨none, [], []⟩ "test_query" "SELECT * FROM users"
      = .error (.notInitialized "Database not initialized") := rfl

/-- C2 (amended): `store(name, sql_text)` dispatches to the active backend
driver's `store`, which inserts or overwrites the entry in that driver's
query registry; called while no backend is active it fails with the
`NotInitializedError` kind. -/
theorem db_store_dispatch (st : DBState) (name sql : String) :
    (st.db_module = none →
      db_store st name sql
        = .error (.notInitialized "Database not initialized"))
    ∧ (st.db_module = some .POSTGRES →
      db_store st name sql
        = .ok { st with psql_saved := store_sql st.psql_saved name sql })
    ∧ (st.db_module = some .SQLITE →
      db_store st name sql
        = .ok { st with sqlt_saved := store_sql st.sqlt_saved name sql }) := by
  refine ⟨fun h => ?_, fun h => ?_, fun h => ?_⟩ <;> simp [db_store, h]

/-- Witness for C2's amended theorem at concrete states. -/
theorem db_store_dispatch_witness :
    db_store ⟨none, [], []⟩ "q" "s"
      = .error (.notInitialized "Database not initialized")
    ∧ db_store ⟨some .POSTGRES, [], []⟩ "q" "s"
      = .ok ⟨some .POSTGRES, [("q", "s")], []⟩
    ∧ db_store ⟨some .SQLITE, [], []⟩ "q" "s"
      = .ok ⟨some .SQLITE, [], [("q", "s")]⟩ :=
  ⟨(db_store_dispatch ⟨none, [], []⟩ "q" "s").1 rfl,
   (db_store_dispatch ⟨some .POSTGRES, [], []⟩ "q" "s").2.1 rfl,
   (db_store_dispatch ⟨some .SQLITE, [], []⟩ "q" "s").2.2 rfl⟩

/-- C3: with the Embedded (SQLite) backend active, every `execute` call
fails with the `UnsupportedOperationError` kind carrying the explanatory
message `SQLite execute function not implemented`, and every `transaction`
call fails the same way with `SQLite transaction function not
implemented`. -/
theorem sqlite_execute_transaction_unsupported {ρ π ρreq τ : Type}
    (psqlExec : String → π → Bool → Except DBErr (List ρ))
    (psqlTxn : ρreq → τ) (st : DBState) (h : st.db_module = some .SQLITE)
    (name : String) (params : π) (req : ρreq) :
    db_execute psqlExec st name params
      = .error (.unsupported "SQLite execute function not implemented")
    ∧ db_transaction psqlTxn st req
      = .error (.unsupported "SQLite transaction function not implemented") := by
  simp [db_execute, db_transaction, h]

/-- Witness for C3 right after `init` with the Embedded backend. -/
theorem sqlite_execute_transaction_unsupported_witness :
    db_execute (fun _ _ _ => (.ok [] : Except DBErr (List Unit)))
      (db_init .SQLITE ⟨none, [], []⟩) "test_query" 0
      = .error (.unsupported "SQLite execute function not implemented")
    ∧ db_transaction (fun _ : Unit => ())
      (db_init .SQLITE ⟨none, [], []⟩) ()
      = .error (.unsupported "SQLite transaction function not implemented") :=
  sqlite_execute_transaction_unsupported _ _
    (db_init .SQLITE ⟨none, [], []⟩) rfl "test_query" 0 ()

/-- C4: with the ClientServer (PostgreSQL) backend active, `execute(name,
params)` forwards exactly `(name, params)` plus the fixed flag `true` to
the active driver's `execute` (the dispatch point consults nothing else:
the result is fully determined by the driver's answer at those arguments),
and returns the driver's records each wrapped as a `Row`, with the same
length and order. -/
theorem execute_postgres_forwards {ρ π : Type}
    (psqlExec : String → π → Bool → Except DBErr (List ρ))
    (st : DBState) (h : st.db_module = some .POSTGRES)
    (name : String) (params : π) (rs : List ρ)
    (hdriver : psqlExec name params true = .ok rs) :
    db_execute psqlExec st name params = .ok (rs.map Row.mk)
    ∧ (rs.map (Row.mk (ρ := ρ))).length = rs.length
    ∧ ∀ i : Fin rs.length,
        (rs.map (Row.mk (ρ := ρ))).get ⟨i.1, by simp [i.2]⟩
          = Row.mk (rs.get i) := by
  refine ⟨?_, by simp, ?_⟩
  · simp [db_execute, h, hdriver]
  · intro i
    simp

/-- Witness for C4 with a driver that records the arguments it was called
with: the wrapped result exhibits the forwarded `(name, params, true)`. -/
theorem execute_postgres_forwards_witness :
    db_execute
      (fun (n : String) (p : Nat) (b : Bool) =>
        (.ok [(n, p, b)] : Except DBErr (List (String × Nat × Bool))))
      (db_init .POSTGRES ⟨none, [], []⟩) "test_query" 7
      = .ok [Row.mk ("test_query", 7, true)] :=
  (execute_postgres_forwards
    (fun (n : String) (p : Nat) (b : Bool) =>
      (.ok [(n, p, b)] : Except DBErr (List (String × Nat × Bool))))
    (db_init .POSTGRES ⟨none, [], []⟩) rfl "test_query" 7
    [("test_query", 7, true)] rfl).1

/-- C5: at the query-registry level, `store(name, sql)` followed by
resolution of `name` yields exactly `sql`; a second `store(name, sql2)`
makes every subsequent resolution of `name` return `sql2`, even after any
number of further stores under other names. (`store_sql` is a total
function: it never fails.) -/
theorem store_resolve_registry (saved : List (String × String))
    (name sql sql2 : String) (laterStores : List (String × String))
    (hother : ∀ e ∈ laterStores, e.1 ≠ name) :
    resolve_sql (store_sql saved name sql) name = .ok sql
    ∧ resolve_sql (store_sql (store_sql saved name sql) name sql2) name
        = .ok sql2
    ∧ resolve_sql
        (laterStores.foldl (fun r e => store_sql r e.1 e.2)
          (store_sql (store_sql saved name sql) name sql2)) name
        = .ok sql2 := by
  refine ⟨?_, ?_, ?_⟩
  · simp [resolve_sql, store_sql, lookup_dictSet_self]
  · simp [resolve_sql, store_sql, lookup_dictSet_self]
  · rw [resolve_sql, lookup_foldl_store _ _ _ hother]
    simp [store_sql, lookup_dictSet_self]

/-- Witness for C5 on a concrete registry history. -/
theorem store_resolve_registry_witness :
    resolve_sql (store_sql [] "get_all" "SELECT 1") "get_all"
      = .ok "SELECT 1"
    ∧ resolve_sql
        (store_sql (store_sql [] "get_all" "SELECT 1") "get_all" "SELECT 2")
        "get_all" = .ok "SELECT 2"
    ∧ resolve_sql
        ([("get_one", "SELECT 3")].foldl (fun r e => store_sql r e.1 e.2)
          (store_sql (store_sql [] "get_all" "SELECT 1") "get_all" "SELECT 2"))
        "get_all" = .ok "SELECT 2" :=
  store_resolve_registry [] "get_all" "SELECT 1" "SELECT 2"
    [("get_one", "SELECT 3")] (by decide)

/-- C6: with the ClientServer backend active and its driver's `execute`
resolving names in the registry, `execute` on a name absent from the
registry fails with the `NotFoundError` kind — the lookup failure arises
inside the driver's `execute`, and the facade propagates it unwrapped. -/
theorem execute_postgres_missing_name {ρ π : Type}
    (run : String → π → List ρ) (st : DBState)
    (h : st.db_module = some .POSTGRES) (name : String) (params : π)
    (habsent : st.psql_saved.lookup name = none) :
    db_execute (psql_execute st.psql_saved run) st name params
      = .error (.notFound name) := by
  simp [db_execute, h, psql_execute, resolve_sql, habsent]

/-- Witness for C6: an empty registry and the name `missing_name`. -/
theorem execute_postgres_missing_name_witness :
    db_execute
      (psql_execute (DBState.psql_saved (db_init .POSTGRES ⟨none, [], []⟩))
        (fun _ _ => ([] : List Unit)))
      (db_init .POSTGRES ⟨none, [], []⟩) "missing_name" 0
      = .error (.notFound "missing_name") :=
  execute_postgres_missing_name (fun _ _ => ([] : List Unit))
    (db_init .POSTGRES ⟨none, [], []⟩) rfl "missing_name" 0 rfl

/-- C7: a `Row` delegates attribute-style access, key-style access, the
membership test and the `keys`/`values`/`items` views to the record it
wraps; consequently two `Row` instances wrapping the same underlying
record yield equal `keys()`, `values()` and `items()`. -/
theorem row_delegates_and_roundtrips {α : Type} (base : Record α)
    (r1 r2 : Row (Record α)) (h1 : r1.row = base) (h2 : r2.row = base) :
    (∀ n, (Row.mk base).getattr n = base.getattr n)
    ∧ (∀ k, (Row.mk base).getitem k = base.getitem k)
    ∧ (∀ k, (Row.mk base).hasKey k = base.hasKey k)
    ∧ (Row.mk base).keys = base.keyList
    ∧ (Row.mk base).values = base.valList
    ∧ (Row.mk base).items = base.itemList
    ∧ r1.keys = r2.keys ∧ r1.values = r2.values ∧ r1.items = r2.items := by
  refine ⟨fun _ => rfl, fun _ => rfl, fun _ => rfl, rfl, rfl, rfl, ?_, ?_, ?_⟩
  all_goals simp [Row.keys, Row.values, Row.items, h1, h2]

/-- Witness for C7 on the mock record of `test_row_wrapper`. -/
theorem row_delegates_and_roundtrips_witness :
    (Row.mk mock_row).getattr "id" = mock_row.getattr "id"
    ∧ (Row.mk mock_row).keys = mock_row.keyList
    ∧ (Row.mk mock_row).keys = (Row.mk mock_row).keys
    ∧ (Row.mk mock_row).values = (Row.mk mock_row).values
    ∧ (Row.mk mock_row).items = (Row.mk mock_row).items :=
  ⟨(row_delegates_and_roundtrips mock_row (Row.mk mock_row)
      (Row.mk mock_row) rfl rfl).1 "id",
   (row_delegates_and_roundtrips mock_row (Row.mk mock_row)
      (Row.mk mock_row) rfl rfl).2.2.2.1,
   (row_delegates_and_roundtrips mock_row (Row.mk mock_row)
      (Row.mk mock_row) rfl rfl).2.2.2.2.2.2.1,
   (row_delegates_and_roundtrips mock_row (Row.mk mock_row)
      (Row.mk mock_row) rfl rfl).2.2.2.2.2.2.2.1,
   (row_delegates_and_roundtrips mock_row (Row.mk mock_row)
      (Row.mk mock_row) rfl rfl).2.2.2.2.2.2.2.2⟩

/-- C8: `shutdown()` releases backend-wide resources according to the
active backend: with the ClientServer backend active it performs the
driver's shutdown exactly once (trace `[psqlShutdown]`, the pool drain);
with the Embedded backend active it is a no-op completing without failure
(trace `[]`). -/
theorem shutdown_by_backend (st : DBState) :
    (st.db_module = some .POSTGRES → db_shutdown st = .ok [.psqlShutdown])
    ∧ (st.db_module = some .SQLITE → db_shutdown st = .ok []) := by
  refine ⟨fun h => ?_, fun h => ?_⟩ <;> simp [db_shutdown, h]

/-- Witness for C8 at both initialized states. -/
theorem shutdown_by_backend_witness :
    db_shutdown (db_init .POSTGRES ⟨none, [], []⟩) = .ok [.psqlShutdown]
    ∧ db_shutdown (db_init .SQLITE ⟨none, [], []⟩) = .ok [] :=
  ⟨(shutdown_by_backend (db_init .POSTGRES ⟨none, [], []⟩)).1 rfl,
   (shutdown_by_backend (db_init .SQLITE ⟨none, [], []⟩)).2 rfl⟩

/-- C9: the connection-scoping middleware releases the acquired connection
on every exit path — success, handled error, unhandled fault, timeout,
cancellation — so the pool's available-connection count returns to its
pre-request value after the request completes; when a connection was
actually acquired the outcome is propagated unchanged with the pool
restored exactly. -/
theorem middleware_restores_pool (p : Pool) (o : ReqOutcome) :
    ((conn_middleware p o).2).available = p.available
    ∧ (0 < p.available → conn_middleware p o = (o, p)) := by
  by_cases h : 0 < p.available
  · have hrel : p.available - 1 + 1 = p.available := Nat.succ_pred_eq_of_pos h
    constructor
    · simp [conn_middleware, pool_acquire, pool_release, h, hrel]
    · intro _
      simp [conn_middleware, pool_acquire, pool_release, h, hrel]
  · constructor
    · simp [conn_middleware, pool_acquire, h]
    · intro hc
      exact absurd hc h

/-- Witness for C9: a handler that raises an unhandled fault mid-request
against a pool with three of five connections available. -/
theorem middleware_restores_pool_witness :
    ((conn_middleware ⟨5, 3⟩ .unhandledFault).2).available = 3
    ∧ conn_middleware ⟨5, 3⟩ .unhandledFault = (.unhandledFault, ⟨5, 3⟩) :=
  ⟨(middleware_restores_pool ⟨5, 3⟩ .unhandledFault).1,
   (middleware_restores_pool ⟨5, 3⟩ .unhandledFault).2 (by decide)⟩

/-- C10: `config.get` splits its key on dots and walks the nested `CONFIG`
mapping. For every dotted key all of whose segments equal their own
casefold it behaves as the consistent walker — returning the stored value,
or the `Exception` naming the full key when a segment is absent, never a
plain `KeyError`. But because the presence check uses each segment as
written while the value is read under the casefolded segment, a key with
an uppercase segment can fail with a plain `KeyError` even though `init`'s
merge stored the leaf value under its casefolded name: after merging
`DB.Port = 1` the value sits at `DB -> port`, `get "DB.port"` dies with
`KeyError "db"`, while the all-lowercase `get "db.port"` raises the
full-key-naming `Exception`. -/
theorem config_get_casefold_claim :
    (∀ (cfg : List (String × CVal)) (fullKey : String),
        (∀ s ∈ pySplitDot fullKey, pyCasefold s = s) →
        config_get cfg fullKey = config_get_spec cfg fullKey
        ∧ ∀ s, config_get cfg fullKey ≠ .error (.keyError s))
    ∧ merge_into [("DB", .table [("Port", .prim (.int 1))])] [] =
        some [("DB", .table [("port", .prim (.int 1))])]
    ∧ config_get [("DB", .table [("port", .prim (.int 1))])] "DB.port" =
        .error (.keyError "db")
    ∧ config_get_spec [("DB", .table [("port", .prim (.int 1))])] "DB.port" =
        .ok (.prim (.int 1))
    ∧ config_get [("DB", .table [("port", .prim (.int 1))])] "db.port" =
        .error (.exn "Config key not present: db.port") := by
  refine ⟨fun cfg fullKey hinv => ⟨?_, ?_⟩,
    by simp [merge_into, dictSet, pyCasefold, charLower, List.lookup],
    rfl, rfl, rfl⟩
  · unfold config_get config_get_spec
    exact config_get_go_eq_spec _ _ _ hinv
  · intro s
    unfold config_get
    rw [config_get_go_eq_spec _ _ _ hinv]
    exact config_get_spec_go_no_keyError _ _ _ s

/-- Witness for C10's universal part on an all-lowercase key. -/
theorem config_get_casefold_claim_witness :
    config_get [("db", .table [("port", .prim (.int 5432))])] "db.port"
      = config_get_spec [("db", .table [("port", .prim (.int 5432))])] "db.port"
    ∧ config_get [("db", .table [("port", .prim (.int 5432))])] "db.port"
      ≠ .error (.keyError "db") :=
  ⟨(config_get_casefold_claim.1 _ "db.port" (by decide)).1,
   (config_get_casefold_claim.1 _ "db.port" (by decide)).2 "db"⟩

end Jubtools
